import Mathlib

/-!
Verification development for a conversational to-do-list assistant.

The program keeps, per user, an active task list and a completed task list
(`tools.py`, class `TodoTools`), a conversation history with FIFO truncation
(`memory_manager.py`, class `MemoryManager`), and a chat front end that
short-circuits a few literal keywords before calling the external model
(`main.py`, class `TodoChatbot`).

The embedding below translates the relevant Python functions into Lean.
File persistence is abstracted away: the Python code re-reads the JSON
documents at the start of every operation and rewrites them at the end, so
each operation is a pure function from the in-memory document state to the
new document state plus a status outcome.  Timestamps and uuids produced by
the environment (`datetime.now().isoformat()`, `uuid.uuid4()`) are passed in
as explicit string parameters.  Each distinct `return` site of a Python
function is represented by one constructor of a `Status` inductive.
-/

/-- Python `str.lower()`: lower-case every character. -/
def pyLower (s : String) : String := ⟨s.data.map Char.toLower⟩

/-- Python `str.strip()`: drop leading and trailing whitespace characters. -/
def pyStrip (s : String) : String :=
  ⟨((s.data.dropWhile Char.isWhitespace).reverse.dropWhile Char.isWhitespace).reverse⟩

/-- Python `str.isdigit()` on ASCII input: non-empty and every character a digit. -/
def pyIsDigit (s : String) : Bool := !s.data.isEmpty && s.data.all Char.isDigit

/-- Python `int(s)` for a string of ASCII digits. -/
def strToNat (s : String) : Nat :=
  s.data.foldl (fun n c => 10 * n + (c.toNat - 48)) 0

/-- Python slice `l[-n:]` for a non-negative `n`.
Note Python's quirk at `n = 0`: `-0 == 0`, so `l[-0:]` is the whole list. -/
def pySliceLast (n : Nat) (l : List α) : List α :=
  if n = 0 then l else l.drop (l.length - n)

/-- A task dictionary from `tools.py` (named `TodoTask` here because `Task`
is taken by the Lean core library).  The Python dicts always carry a
`"task"` key; the other keys may be absent (`"priority" in task` checks),
hence `Option` fields.  `completed` is the `"completed"` timestamp key set
by `complete_todo`. -/
structure TodoTask where
  task : String
  priority : Option String
  tags : Option (List String)
  created : Option String
  completed : Option String
deriving DecidableEq, Repr

def defaultTask : TodoTask := ⟨"", none, none, none, none⟩

instance : Inhabited TodoTask := ⟨defaultTask⟩

/-- The per-user todos document: `{"todos": [...], "completed": [...]}`. -/
structure TodoState where
  active : List TodoTask
  completed : List TodoTask
deriving DecidableEq, Repr

def emptyStore : TodoState := ⟨[], []⟩

/-- One constructor per distinct `return` site of the `TodoTools` methods.
The carried strings are the pieces interpolated into the Python message. -/
inductive Status where
  | added (task : String)            -- "✅ Added: {task}"
  | alreadyExists (task : String)    -- "⚠️ Task ... already exists"
  | emptyTask                        -- "❌ Cannot add empty task"
  | removed (task : String)          -- "✅ Removed: {task}"
  | invalidNumber (len : Nat)        -- "⚠️ Invalid task number (1-{len})"
  | notFound (ref : String)          -- "⚠️ Task ... not found"
  | multipleMatches                  -- "⚠️ Multiple matches found ..."
  | emptyRef                         -- "❌ Cannot remove empty task reference"
  | completedOk (task : String)      -- "✅ Completed: {task}"
  | clearedAll                       -- "✅ Cleared all tasks (including completed)"
  | clearedActive                    -- "✅ Cleared active tasks (kept completed)"
deriving DecidableEq, Repr

/-- `TodoTools.add_todo(task, priority, tags)`.  `now` is
`datetime.now().isoformat()`. -/
def add_todo (now task priority : String) (tags : List String) (s : TodoState) :
    Status × TodoState :=
  if pyStrip task = "" then (.emptyTask, s)
  else if s.active.any (fun t => pyLower t.task == pyLower task) then
    (.alreadyExists task, s)
  else
    (.added task,
     ⟨s.active ++ [⟨task, some (pyLower priority), some tags, some now, none⟩],
      s.completed⟩)

/-- Python `p in l` on strings, over the character lists: `p` occurs as a
contiguous substring of `l` (the empty pattern occurs in every string). -/
def charsInfix (p l : List Char) : Bool :=
  match l with
  | [] => p.isEmpty
  | _ :: rest => p.isPrefixOf l || charsInfix p rest

/-- The list `matches = [i for i, t in enumerate(active) if task_lower in t["task"].lower()]`
built by `remove_todo` / `complete_todo` for a text reference. -/
def matchIdxs (task_ref : String) (active : List TodoTask) : List Nat :=
  (List.range active.length).filter
    (fun i => charsInfix (pyLower task_ref).data (pyLower (active.getD i defaultTask).task).data)

/-- `TodoTools.remove_todo(task_ref)` for a string reference.  The index
branch computes `index = int(task_ref) - 1` over the integers as in Python
and checks `0 <= index < len(active)`. -/
def remove_todo (task_ref : String) (s : TodoState) : Status × TodoState :=
  if task_ref = "" then (.emptyRef, s)
  else if pyIsDigit task_ref then
    if 0 ≤ (strToNat task_ref : Int) - 1 ∧ (strToNat task_ref : Int) - 1 < (s.active.length : Int) then
      (.removed (s.active.getD ((strToNat task_ref : Int) - 1).toNat defaultTask).task,
       ⟨s.active.eraseIdx ((strToNat task_ref : Int) - 1).toNat, s.completed⟩)
    else (.invalidNumber s.active.length, s)
  else
    match matchIdxs task_ref s.active with
    | [] => (.notFound task_ref, s)
    | [i] => (.removed (s.active.getD i defaultTask).task,
              ⟨s.active.eraseIdx i, s.completed⟩)
    | _ :: _ :: _ => (.multipleMatches, s)

/-- `TodoTools.complete_todo(task_ref)` for a string reference; `now` is the
completion timestamp `datetime.now().isoformat()`.  Unlike `remove_todo`
there is no empty-reference guard in the Python source. -/
def complete_todo (now task_ref : String) (s : TodoState) : Status × TodoState :=
  if pyIsDigit task_ref then
    if 0 ≤ (strToNat task_ref : Int) - 1 ∧ (strToNat task_ref : Int) - 1 < (s.active.length : Int) then
      (.completedOk (s.active.getD ((strToNat task_ref : Int) - 1).toNat defaultTask).task,
       ⟨s.active.eraseIdx ((strToNat task_ref : Int) - 1).toNat,
        s.completed ++
          [{ s.active.getD ((strToNat task_ref : Int) - 1).toNat defaultTask with
              completed := some now }]⟩)
    else (.invalidNumber s.active.length, s)
  else
    match matchIdxs task_ref s.active with
    | [] => (.notFound task_ref, s)
    | [i] =>
      (.completedOk (s.active.getD i defaultTask).task,
       ⟨s.active.eraseIdx i,
        s.completed ++ [{ s.active.getD i defaultTask with completed := some now }]⟩)
    | _ :: _ :: _ => (.multipleMatches, s)

/-- Rendering of one active task line in `list_todos`:
`f"{i}. {task}"` plus optional priority and non-empty tag annotations.
`i` here is 0-based; Python enumerates from 1. -/
def renderActive (i : Nat) (t : TodoTask) : String :=
  let s1 := toString (i + 1) ++ ". " ++ t.task
  let s2 := match t.priority with
    | some p => s1 ++ " (Priority: " ++ p ++ ")"
    | none => s1
  match t.tags with
  | some tags =>
    if tags.isEmpty then s2
    else s2 ++ " [Tags: " ++ String.intercalate ", " tags ++ "]"
  | none => s2

/-- Rendering of one completed task line in `list_todos`:
`f"{i}. {task}"` plus `" - Done on "` and the first 10 characters of the
completion timestamp. -/
def renderCompleted (i : Nat) (t : TodoTask) : String :=
  let s1 := toString (i + 1) ++ ". " ++ t.task
  match t.completed with
  | some c => s1 ++ " - Done on " ++ ⟨c.data.take 10⟩
  | none => s1

/-- `TodoTools.list_todos(show_completed)`. -/
def list_todos (show_completed : Bool) (s : TodoState) : String :=
  if s.active.isEmpty && (!show_completed || s.completed.isEmpty) then
    "📝 Your todo list is empty"
  else
    let lines := "📝 Active Tasks:" ::
      (List.range s.active.length).map (fun i => renderActive i (s.active.getD i defaultTask))
    let lines := if show_completed && !s.completed.isEmpty then
      lines ++ ("\n✅ Completed Tasks:" ::
        (List.range s.completed.length).map
          (fun i => renderCompleted i (s.completed.getD i defaultTask)))
      else lines
    String.intercalate "\n" lines

/-- `TodoTools.clear_todos(include_completed)`. -/
def clear_todos (include_completed : Bool) (s : TodoState) : Status × TodoState :=
  if include_completed then (.clearedAll, ⟨[], []⟩)
  else (.clearedActive, ⟨[], s.completed⟩)

/-- The shared reference-resolution rule of `remove_todo` / `complete_todo`:
a numeric reference resolves through the 1-based index branch, a text
reference resolves when the substring match list is a singleton. -/
def resolve (task_ref : String) (active : List TodoTask) : Option Nat :=
  if pyIsDigit task_ref then
    if 0 ≤ (strToNat task_ref : Int) - 1 ∧ (strToNat task_ref : Int) - 1 < (active.length : Int) then
      some ((strToNat task_ref : Int) - 1).toNat
    else none
  else
    match matchIdxs task_ref active with
    | [i] => some i
    | _ => none

example : (add_todo "t0" "buy milk" "medium" [] emptyStore).1 = .added "buy milk" := by decide

example :
    list_todos false (add_todo "t0" "buy milk" "medium" [] emptyStore).2 =
      "📝 Active Tasks:\n1. buy milk (Priority: medium)" := by decide

example : remove_todo "0" (add_todo "t0" "buy milk" "medium" [] emptyStore).2 =
    (.invalidNumber 1, (add_todo "t0" "buy milk" "medium" [] emptyStore).2) := by decide

example : (remove_todo "milk" (add_todo "t0" "buy milk" "medium" [] emptyStore).2).1 =
    .removed "buy milk" := by decide

example : (complete_todo "t1" "1" (add_todo "t0" "buy milk" "medium" [] emptyStore).2).2 =
    ⟨[], [⟨"buy milk", some "medium", some [], some "t0", some "t1"⟩]⟩ := by decide

/-- One entry of the conversation history file
(`MemoryManager.add_to_conversation` builds
`{"id", "role", "message", "timestamp", "metadata"}`). -/
structure ConvEntry where
  entryId : String
  role : String
  message : String
  timestamp : String
  metadata : List (String × String)
deriving DecidableEq, Repr

/-- `MemoryManager.add_to_conversation(role, message, metadata)`:
append the new entry, then truncate with `conversation[-max_conversation_length:]`
whenever the length exceeds `max_conversation_length`.  `entryId` and
`timestamp` are the environment-produced `uuid4()` and `now()` values;
`maxLen` is the configured `max_conversation_length` (default 100). -/
def add_to_conversation (entryId role message timestamp : String)
    (metadata : List (String × String)) (maxLen : Nat)
    (conversation : List ConvEntry) : List ConvEntry :=
  let conversation := conversation ++ [⟨entryId, role, message, timestamp, metadata⟩]
  if conversation.length > maxLen then pySliceLast maxLen conversation else conversation

/-- The full per-user document set held by `MemoryManager`: profile,
conversation history, and the todos document.  The profile dictionary is
modelled as an association list with no duplicate keys, in key insertion
order, as a Python `dict` of string values. -/
structure UserData where
  profile : List (String × String)
  conversation : List ConvEntry
  active : List TodoTask
  completed : List TodoTask
deriving DecidableEq, Repr

/-- The dictionary returned by `MemoryManager.export_data` (with
`include_conversation=True, include_todos=True`): the current profile, the
conversation history, and the todos document (`metadata`/`last_updated`
bookkeeping strings omitted). -/
structure ExportData where
  profile : List (String × String)
  conversation : List ConvEntry
  todosActive : List TodoTask
  todosCompleted : List TodoTask
deriving DecidableEq, Repr

/-- `MemoryManager.export_data(include_conversation=True, include_todos=True)`. -/
def export_data (s : UserData) : ExportData :=
  ⟨s.profile, s.conversation, s.active, s.completed⟩

/-- Python `d1.update(d2)` on dictionaries as association lists: keys already
in `d1` keep their position and take the value from `d2`; keys only in `d2`
are appended in their `d2` order. -/
def dictUpdate (d1 d2 : List (String × String)) : List (String × String) :=
  (d1.map (fun p => match d2.lookup p.1 with | some v => (p.1, v) | none => p)) ++
  d2.filter (fun p => !(d1.any (fun q => q.1 == p.1)))

/-- `MemoryManager.import_data(data, merge)` on an exported document set:
with `merge=True` the profile is `dict.update`d, the conversation is
extended, and the two task lists of the todos document are concatenated
(existing first); with `merge=False` every document is replaced by the
imported one. -/
def import_data (d : ExportData) (merge : Bool) (s : UserData) : UserData :=
  if merge then
    { profile := dictUpdate s.profile d.profile,
      conversation := s.conversation ++ d.conversation,
      active := s.active ++ d.todosActive,
      completed := s.completed ++ d.todosCompleted }
  else
    { profile := d.profile,
      conversation := d.conversation,
      active := d.todosActive,
      completed := d.todosCompleted }

/-- The reply classes of `TodoChatbot.chat` in `main.py`, one per branch of
the deterministic prefix that runs before the external model: the
empty-input guard, the greeting regex, the affirmative list, the exit list,
and the fall-through to `agent_executor.invoke` (the external model call). -/
inductive ChatReply where
  | invalid
  | greeting
  | affirmative
  | goodbye
  | agent
deriving DecidableEq, Repr

/-- The deterministic branch structure of `TodoChatbot.chat(user_input)`:
`input_lower = user_input.lower().strip()`; a greeting matches
`re.match(r"^(hi|hello|hey)", input_lower)`; affirmatives are
`["yes", "yeah", "yep", "sure"]`; the locally handled exit keywords are
`["exit", "quit", "bye"]`; anything else reaches the agent (the external
model). -/
def chatClassify (user_input : String) : ChatReply :=
  if user_input = "" then .invalid
  else if "hi".data.isPrefixOf (pyStrip (pyLower user_input)).data
       || "hello".data.isPrefixOf (pyStrip (pyLower user_input)).data
       || "hey".data.isPrefixOf (pyStrip (pyLower user_input)).data then .greeting
  else if pyStrip (pyLower user_input) = "yes" ∨ pyStrip (pyLower user_input) = "yeah"
       ∨ pyStrip (pyLower user_input) = "yep" ∨ pyStrip (pyLower user_input) = "sure" then
    .affirmative
  else if pyStrip (pyLower user_input) = "exit" ∨ pyStrip (pyLower user_input) = "quit"
       ∨ pyStrip (pyLower user_input) = "bye" then .goodbye
  else .agent

/-- One invocation of a `TodoTools` mutating operation, with the
environment-produced timestamps as data. -/
inductive TodoOp where
  | add (now task priority : String) (tags : List String)
  | remove (task_ref : String)
  | complete (now task_ref : String)
  | clear (include_completed : Bool)
deriving DecidableEq, Repr

/-- The state reached after one `TodoTools` operation (its status string is
shown to the user and does not feed back into the store). -/
def applyOp (s : TodoState) (op : TodoOp) : TodoState :=
  match op with
  | .add now task priority tags => (add_todo now task priority tags s).2
  | .remove task_ref => (remove_todo task_ref s).2
  | .complete now task_ref => (complete_todo now task_ref s).2
  | .clear include_completed => (clear_todos include_completed s).2

/-- The store state after a sequence of operations starting from the
freshly initialized empty document (`_initialize_todos_file`). -/
def runOps (ops : List TodoOp) : TodoState := ops.foldl applyOp emptyStore

/-- No two active tasks have the same text compared case-insensitively. -/
def noCaseDup (l : List TodoTask) : Prop :=
  l.Pairwise (fun a b => pyLower a.task ≠ pyLower b.task)

instance (l : List TodoTask) : Decidable (noCaseDup l) :=
  List.instDecidablePairwise l

/-- Invariant of the active list maintained by the `TodoTools` operations:
no case-insensitive duplicate texts, and no blank texts. -/
def activeInv (l : List TodoTask) : Prop :=
  noCaseDup l ∧ ∀ t ∈ l, pyStrip t.task ≠ ""

example : chatClassify "goodbye" = .agent := by decide
example : chatClassify " EXIT " = .goodbye := by decide
example : chatClassify "hello there" = .greeting := by decide
example : add_to_conversation "u" "user" "m" "t" [] 0 [] = [⟨"u", "user", "m", "t", []⟩] := by decide
example :
    (add_to_conversation "u" "user" "m" "t" [] 1
      [⟨"v", "assistant", "x", "t0", []⟩]) = [⟨"u", "user", "m", "t", []⟩] := by decide

/-! ### Helper lemmas -/

/-- Lower-casing does not change whether a character is whitespace. -/
theorem isWhitespace_toLower (c : Char) :
    (Char.toLower c).isWhitespace = c.isWhitespace := by
  simp only [Char.toLower]
  split
  · rename_i h
    obtain ⟨h1, h2⟩ := h
    have hws : c.isWhitespace = false := by
      have hs : c ≠ ' ' := by intro he; rw [he] at h1; exact absurd h1 (by decide)
      have ht : c ≠ '\t' := by intro he; rw [he] at h1; exact absurd h1 (by decide)
      have hr : c ≠ '\r' := by intro he; rw [he] at h1; exact absurd h1 (by decide)
      have hn : c ≠ '\n' := by intro he; rw [he] at h1; exact absurd h1 (by decide)
      simp [Char.isWhitespace, hs, ht, hr, hn]
    rw [hws]
    obtain ⟨n, hn⟩ : ∃ n, Char.toNat c = n := ⟨_, rfl⟩
    rw [hn] at h1 h2 ⊢
    interval_cases n <;> decide
  · rfl

/-- `pyStrip s` is empty exactly when every character of `s` is whitespace. -/
theorem pyStrip_eq_empty_iff (s : String) :
    pyStrip s = "" ↔ ∀ c ∈ s.data, c.isWhitespace = true := by
  unfold pyStrip
  rw [String.ext_iff]
  show ((s.data.dropWhile Char.isWhitespace).reverse.dropWhile Char.isWhitespace).reverse =
    ([] : List Char) ↔ _
  rw [List.reverse_eq_nil_iff, List.dropWhile_eq_nil_iff]
  constructor
  · intro h c hc
    have hsplit := List.takeWhile_append_dropWhile Char.isWhitespace (l := s.data)
    rw [← hsplit] at hc
    rcases List.mem_append.mp hc with h1 | h2
    · exact List.mem_takeWhile_imp h1
    · exact h c (List.mem_reverse.mpr h2)
  · intro h c hc
    refine h c ?_
    have := List.mem_reverse.mp hc
    have hsub : s.data.dropWhile Char.isWhitespace <:+ s.data :=
      List.dropWhile_suffix Char.isWhitespace
    exact hsub.subset this

/-- If two strings agree after lower-casing, blankness of one transfers to
the other. -/
theorem all_ws_of_lower_eq {a b : String} (h : pyLower a = pyLower b)
    (hall : ∀ c ∈ a.data, c.isWhitespace = true) : ∀ c ∈ b.data, c.isWhitespace = true := by
  intro c hc
  have hmap : a.data.map Char.toLower = b.data.map Char.toLower := congrArg String.data h
  have hmem : Char.toLower c ∈ b.data.map Char.toLower := List.mem_map_of_mem _ hc
  rw [← hmap] at hmem
  obtain ⟨d, hd, hde⟩ := List.mem_map.mp hmem
  rw [← isWhitespace_toLower c, ← hde, isWhitespace_toLower d]
  exact hall d hd

/-- If two strings agree after lower-casing and one has non-blank content,
so does the other. -/
theorem pyStrip_ne_empty_of_lower_eq {a b : String} (h : pyLower a = pyLower b)
    (ha : pyStrip a ≠ "") : pyStrip b ≠ "" := by
  intro hb
  exact ha ((pyStrip_eq_empty_iff a).mpr
    (all_ws_of_lower_eq h.symm ((pyStrip_eq_empty_iff b).mp hb)))

/-- `remove_todo` never adds to the active list: the new active list is a
sublist of the old one (it erases at most one position). -/
theorem remove_todo_active_sublist (task_ref : String) (s : TodoState) :
    (remove_todo task_ref s).2.active.Sublist s.active := by
  unfold remove_todo
  split
  · exact List.Sublist.refl _
  split
  · split
    · exact List.eraseIdx_sublist _ _
    · exact List.Sublist.refl _
  · split
    · exact List.Sublist.refl _
    · exact List.eraseIdx_sublist _ _
    · exact List.Sublist.refl _

/-- `complete_todo` never adds to the active list. -/
theorem complete_todo_active_sublist (now task_ref : String) (s : TodoState) :
    (complete_todo now task_ref s).2.active.Sublist s.active := by
  unfold complete_todo
  split
  · split
    · exact List.eraseIdx_sublist _ _
    · exact List.Sublist.refl _
  · split
    · exact List.Sublist.refl _
    · exact List.eraseIdx_sublist _ _
    · exact List.Sublist.refl _

/-- `add_todo` preserves the active-list invariant: the duplicate guard
rejects any text that already occurs case-insensitively, and the blank
guard rejects whitespace-only texts. -/
theorem add_todo_activeInv (now task priority : String) (tags : List String) (s : TodoState)
    (h : activeInv s.active) : activeInv (add_todo now task priority tags s).2.active := by
  unfold add_todo
  split
  · exact h
  split
  · exact h
  · rename_i hblank hany
    constructor
    · refine List.pairwise_append.mpr ⟨h.1, List.pairwise_singleton _ _, ?_⟩
      intro a ha b hb
      rw [List.mem_singleton] at hb
      subst hb
      intro he
      apply hany
      rw [List.any_eq_true]
      exact ⟨a, ha, by simp [he]⟩
    · intro t ht
      rcases List.mem_append.mp ht with h1 | h2
      · exact h.2 t h1
      · rw [List.mem_singleton] at h2
        subst h2
        exact hblank

/-- Every `TodoTools` operation preserves the active-list invariant. -/
theorem applyOp_activeInv (s : TodoState) (op : TodoOp) (h : activeInv s.active) :
    activeInv (applyOp s op).active := by
  cases op with
  | add now task priority tags => exact add_todo_activeInv now task priority tags s h
  | remove task_ref =>
    have hs := remove_todo_active_sublist task_ref s
    exact ⟨List.Pairwise.sublist hs h.1, fun t ht => h.2 t (hs.subset ht)⟩
  | complete now task_ref =>
    have hs := complete_todo_active_sublist now task_ref s
    exact ⟨List.Pairwise.sublist hs h.1, fun t ht => h.2 t (hs.subset ht)⟩
  | clear include_completed =>
    show activeInv (clear_todos include_completed s).2.active
    unfold clear_todos
    split <;> exact ⟨List.Pairwise.nil, by simp⟩

/-- The invariant holds at every state reachable by a sequence of
operations from a given invariant-satisfying state. -/
theorem foldl_applyOp_activeInv (ops : List TodoOp) (s : TodoState) (h : activeInv s.active) :
    activeInv ((ops.foldl applyOp s).active) := by
  induction ops generalizing s with
  | nil => exact h
  | cons op rest ih => exact ih (applyOp s op) (applyOp_activeInv s op h)

/-- The invariant holds at every state reachable from the empty store. -/
theorem runOps_activeInv (ops : List TodoOp) : activeInv (runOps ops).active :=
  foldl_applyOp_activeInv ops emptyStore ⟨List.Pairwise.nil, by simp [emptyStore]⟩

/-- Indices produced by the substring matcher are in range. -/
theorem matchIdxs_mem_lt {task_ref : String} {active : List TodoTask} {i : Nat}
    (h : i ∈ matchIdxs task_ref active) : i < active.length := by
  unfold matchIdxs at h
  exact List.mem_range.mp (List.mem_filter.mp h).1

/-- A resolved reference denotes an in-range index of the active list. -/
theorem resolve_lt {task_ref : String} {active : List TodoTask} {i : Nat}
    (h : resolve task_ref active = some i) : i < active.length := by
  unfold resolve at h
  split at h
  · split at h
    · rename_i hcond
      rw [Option.some.injEq] at h
      omega
    · exact absurd h (by simp)
  · split at h
    · rename_i i0 hm
      rw [Option.some.injEq] at h
      subst h
      exact matchIdxs_mem_lt (hm ▸ List.mem_singleton.mpr rfl)
    · exact absurd h (by simp)

/-- `getD` at an in-range index is plain indexing. -/
theorem getD_eq_getElem_of_lt {α : Type} {l : List α} {i : Nat} (d : α) (hi : i < l.length) :
    l.getD i d = l[i] := by
  rw [List.getD_eq_getElem?_getD, List.getElem?_eq_getElem hi, Option.getD_some]

/-- Erasing position `i` from a list without case-insensitive duplicate
texts removes every occurrence of the erased task's text. -/
theorem noCaseDup_eraseIdx {l : List TodoTask} {i : Nat} (hi : i < l.length)
    (h : noCaseDup l) :
    ∀ u ∈ l.eraseIdx i, pyLower u.task ≠ pyLower (l.getD i defaultTask).task := by
  have hsplit : l = l.take i ++ l.getD i defaultTask :: l.drop (i + 1) := by
    conv_lhs => rw [← List.take_append_drop i l]
    rw [List.drop_eq_getElem_cons hi, getD_eq_getElem_of_lt defaultTask hi]
  unfold noCaseDup at h
  rw [hsplit] at h
  obtain ⟨hp1, hp2, hp3⟩ := List.pairwise_append.mp h
  obtain ⟨hx, _⟩ := List.pairwise_cons.mp hp2
  intro u hu
  rw [List.eraseIdx_eq_take_drop_succ] at hu
  rcases List.mem_append.mp hu with h1 | h2
  · exact hp3 u h1 _ (List.mem_cons_self _ _)
  · exact (hx u h2).symm

/-- When the reference resolves to index `i`, `complete_todo` pops the task
at `i` from the active list and appends it, stamped with the completion
timestamp, to the completed list. -/
theorem complete_todo_of_resolve (now task_ref : String) (s : TodoState) (i : Nat)
    (h : resolve task_ref s.active = some i) :
    complete_todo now task_ref s =
      (.completedOk (s.active.getD i defaultTask).task,
       ⟨s.active.eraseIdx i,
        s.completed ++ [{ s.active.getD i defaultTask with completed := some now }]⟩) := by
  unfold resolve at h
  unfold complete_todo
  split at h
  · rename_i hdig
    rw [if_pos hdig]
    split at h
    · rename_i hcond
      rw [Option.some.injEq] at h
      rw [if_pos hcond, h]
    · exact absurd h (by simp)
  · rename_i hdig
    rw [if_neg hdig]
    split at h
    · rename_i i0 hm
      rw [Option.some.injEq] at h
      subst h
      rw [hm]
    · exact absurd h (by simp)

/-- Looking up a key in the updated-in-place part of `dictUpdate`. -/
theorem lookup_map_update (d1 d2 : List (String × String)) (k : String) :
    (d1.map (fun p => match d2.lookup p.1 with | some v => (p.1, v) | none => p)).lookup k =
      match d1.lookup k with
      | some b => some (match d2.lookup k with | some v => v | none => b)
      | none => none := by
  induction d1 with
  | nil => rfl
  | cons p tl ih =>
    obtain ⟨a, b⟩ := p
    by_cases hka : (k == a) = true
    · have hk : k = a := eq_of_beq hka
      subst hk
      cases hd2 : d2.lookup k <;>
        simp [List.map_cons, hd2, List.lookup_cons, hka]
    · cases hd2 : d2.lookup a <;>
        simp [List.map_cons, hd2, List.lookup_cons, hka, ih]

/-- Looking up a key absent from `d1` in the appended part of `dictUpdate`. -/
theorem lookup_filter_not_mem (d2 : List (String × String)) (d1 : List (String × String))
    (k : String) (hk : ∀ q ∈ d1, (q.1 == k) = false) :
    (d2.filter (fun p => !(d1.any (fun q => q.1 == p.1)))).lookup k = d2.lookup k := by
  induction d2 with
  | nil => rfl
  | cons p tl ih =>
    obtain ⟨c, v⟩ := p
    by_cases hkc : (k == c) = true
    · have hck : k = c := eq_of_beq hkc
      subst hck
      have hc : (d1.any (fun q => q.1 == k)) = false := by
        rw [List.any_eq_false]
        intro q hq
        simp [hk q hq]
      simp [List.filter_cons, hc, List.lookup_cons, hkc]
    · by_cases hdrop : (d1.any (fun q => q.1 == c)) = true
      · simp only [List.filter_cons, hdrop, Bool.not_true]
        rw [if_neg (by decide), ih]
        simp [List.lookup_cons, hkc]
      · rw [Bool.not_eq_true] at hdrop
        simp only [List.filter_cons, hdrop, Bool.not_false, if_pos]
        simp [List.lookup_cons, hkc, ih]

/-- A `none` lookup means no entry of the association list carries the key. -/
theorem lookup_eq_none_forall (d : List (String × String)) (k : String)
    (h : d.lookup k = none) : ∀ q ∈ d, (q.1 == k) = false := by
  induction d with
  | nil => intro q hq; cases hq
  | cons p tl ih =>
    obtain ⟨a, b⟩ := p
    intro q hq
    rw [List.lookup_cons] at h
    rcases List.mem_cons.mp hq with h1 | h2
    · subst h1
      by_cases hka : (k == a) = true
      · rw [hka] at h; cases h
      · rw [Bool.not_eq_true] at hka
        have : k ≠ a := by
          intro he; subst he; simp at hka
        simp only [beq_eq_false_iff_ne, ne_eq]
        exact fun he => this he.symm
    · by_cases hka : (k == a) = true
      · rw [hka] at h; cases h
      · rw [Bool.not_eq_true] at hka
        rw [hka] at h
        exact ih h q h2

/-- Python `dict.update` lookup semantics: the imported dictionary `d2`
wins on its own keys, otherwise the existing dictionary `d1` answers. -/
theorem lookup_dictUpdate (d1 d2 : List (String × String)) (k : String) :
    (dictUpdate d1 d2).lookup k =
      match d2.lookup k with
      | some v => some v
      | none => d1.lookup k := by
  unfold dictUpdate
  rw [List.lookup_append, lookup_map_update]
  cases hd1 : d1.lookup k with
  | some b =>
    cases hd2 : d2.lookup k <;> rfl
  | none =>
    have hall := lookup_eq_none_forall d1 k hd1
    rw [lookup_filter_not_mem _ _ _ hall]
    cases hd2 : d2.lookup k <;> rfl

/-! ### Claim theorems -/

/-- C1: in every store state reachable from the empty store by a sequence
of `TodoTools` operations, the active list has no two tasks with the same
text compared case-insensitively; and calling `add_todo` with a text
already present case-insensitively in the active list returns the
already-exists status and leaves the whole store (both lists) unchanged. -/
theorem claim1_no_case_insensitive_duplicates (ops : List TodoOp) :
    noCaseDup (runOps ops).active ∧
    ∀ now task priority tags,
      (∃ t ∈ (runOps ops).active, pyLower t.task = pyLower task) →
      add_todo now task priority tags (runOps ops) = (.alreadyExists task, runOps ops) := by
  have hinv := runOps_activeInv ops
  refine ⟨hinv.1, ?_⟩
  intro now task priority tags hdup
  obtain ⟨t, ht, hl⟩ := hdup
  have hblank : pyStrip task ≠ "" := pyStrip_ne_empty_of_lower_eq hl (hinv.2 t ht)
  have hany : ((runOps ops).active.any (fun u => pyLower u.task == pyLower task)) = true := by
    rw [List.any_eq_true]
    exact ⟨t, ht, by simp [hl]⟩
  unfold add_todo
  rw [if_neg hblank, if_pos hany]

/-- C1 witness: after adding "buy milk", adding "Buy Milk" again reports
already-exists and changes nothing. -/
theorem claim1_no_case_insensitive_duplicates_witness :
    add_todo "t1" "Buy Milk" "high" [] (runOps [TodoOp.add "t0" "buy milk" "medium" []]) =
      (.alreadyExists "Buy Milk", runOps [TodoOp.add "t0" "buy milk" "medium" []]) :=
  (claim1_no_case_insensitive_duplicates [TodoOp.add "t0" "buy milk" "medium" []]).2
    "t1" "Buy Milk" "high" [] (by decide)

/-- C2: for a numeric reference `i = int(task_ref)`, if `1 ≤ i ≤ len(active)`
then `remove_todo` deletes exactly the task at 1-based position `i` (the new
active list is the old one with position `i` cut out, so later tasks shift
down by one) and leaves the completed list unchanged; if `i = 0` or
`i > len(active)` it returns the out-of-range status and changes nothing. -/
theorem claim2_remove_by_index (task_ref : String) (s : TodoState)
    (hdig : pyIsDigit task_ref = true) :
    (1 ≤ strToNat task_ref → strToNat task_ref ≤ s.active.length →
      remove_todo task_ref s =
        (.removed (s.active.getD (strToNat task_ref - 1) defaultTask).task,
         ⟨s.active.take (strToNat task_ref - 1) ++ s.active.drop (strToNat task_ref),
          s.completed⟩)) ∧
    (strToNat task_ref = 0 ∨ s.active.length < strToNat task_ref →
      remove_todo task_ref s = (.invalidNumber s.active.length, s)) := by
  have hne : task_ref ≠ "" := by
    intro he; rw [he] at hdig; exact absurd hdig (by decide)
  have htn : ((strToNat task_ref : Int) - 1).toNat = strToNat task_ref - 1 := by omega
  constructor
  · intro h1 h2
    unfold remove_todo
    rw [if_neg hne, if_pos hdig, if_pos (by omega), htn,
      List.eraseIdx_eq_take_drop_succ]
    have hsucc : strToNat task_ref - 1 + 1 = strToNat task_ref := by omega
    rw [hsucc]
  · intro hout
    unfold remove_todo
    rw [if_neg hne, if_pos hdig, if_neg (by omega)]

/-- C2 witness: on a three-task list, `remove_todo "2"` removes exactly the
second task, and `remove_todo "4"` is out of range and changes nothing. -/
theorem claim2_remove_by_index_witness :
    remove_todo "2" ⟨[⟨"alpha", none, none, none, none⟩, ⟨"beta", none, none, none, none⟩,
        ⟨"gamma", none, none, none, none⟩], []⟩ =
      (.removed "beta",
       ⟨[⟨"alpha", none, none, none, none⟩, ⟨"gamma", none, none, none, none⟩], []⟩) ∧
    remove_todo "4" ⟨[⟨"alpha", none, none, none, none⟩, ⟨"beta", none, none, none, none⟩,
        ⟨"gamma", none, none, none, none⟩], []⟩ =
      (.invalidNumber 3,
       ⟨[⟨"alpha", none, none, none, none⟩, ⟨"beta", none, none, none, none⟩,
         ⟨"gamma", none, none, none, none⟩], []⟩) :=
  ⟨(claim2_remove_by_index "2"
      ⟨[⟨"alpha", none, none, none, none⟩, ⟨"beta", none, none, none, none⟩,
        ⟨"gamma", none, none, none, none⟩], []⟩ (by decide)).1 (by decide) (by decide),
   (claim2_remove_by_index "4"
      ⟨[⟨"alpha", none, none, none, none⟩, ⟨"beta", none, none, none, none⟩,
        ⟨"gamma", none, none, none, none⟩], []⟩ (by decide)).2 (by decide)⟩

/-- C3: when the reference resolves (by the shared index-or-text rule) to
the single active task at index `i`, `complete_todo` removes that task from
the active list, appends it to the completed list stamped with the non-empty
completion timestamp, no task with its (case-insensitive) text remains in
the active list rendered by the default listing, and the total task count
across both lists is preserved. -/
theorem claim3_complete_moves_task (now task_ref : String) (s : TodoState) (i : Nat)
    (hres : resolve task_ref s.active = some i) (hnow : now ≠ "")
    (hdup : noCaseDup s.active) :
    ∃ stamped : TodoTask,
      stamped.task = (s.active.getD i defaultTask).task ∧
      stamped.completed = some now ∧ stamped.completed ≠ some "" ∧
      complete_todo now task_ref s =
        (.completedOk stamped.task, ⟨s.active.eraseIdx i, s.completed ++ [stamped]⟩) ∧
      (∀ u ∈ s.active.eraseIdx i,
        pyLower u.task ≠ pyLower (s.active.getD i defaultTask).task) ∧
      (s.active.eraseIdx i).length + s.completed.length + 1 =
        s.active.length + s.completed.length := by
  have hlt := resolve_lt hres
  refine ⟨{ s.active.getD i defaultTask with completed := some now }, rfl, rfl, ?_, ?_, ?_, ?_⟩
  · simp [hnow]
  · exact complete_todo_of_resolve now task_ref s i hres
  · exact noCaseDup_eraseIdx hlt hdup
  · rw [List.length_eraseIdx_of_lt hlt]
    omega

/-- C3 witness: completing "beta" on the list [alpha, beta, gamma] with a
concrete timestamp. -/
theorem claim3_complete_moves_task_witness :
    ∃ stamped : TodoTask,
      stamped.task = (([⟨"alpha", none, none, none, none⟩, ⟨"beta", none, none, none, none⟩,
          ⟨"gamma", none, none, none, none⟩] : List TodoTask).getD 1 defaultTask).task ∧
      stamped.completed = some "2024-01-02T00:00:00" ∧ stamped.completed ≠ some "" ∧
      complete_todo "2024-01-02T00:00:00" "beta"
          ⟨[⟨"alpha", none, none, none, none⟩, ⟨"beta", none, none, none, none⟩,
            ⟨"gamma", none, none, none, none⟩], []⟩ =
        (.completedOk stamped.task,
         ⟨([⟨"alpha", none, none, none, none⟩, ⟨"beta", none, none, none, none⟩,
            ⟨"gamma", none, none, none, none⟩] : List TodoTask).eraseIdx 1, [] ++ [stamped]⟩) ∧
      (∀ u ∈ ([⟨"alpha", none, none, none, none⟩, ⟨"beta", none, none, none, none⟩,
          ⟨"gamma", none, none, none, none⟩] : List TodoTask).eraseIdx 1,
        pyLower u.task ≠
          pyLower (([⟨"alpha", none, none, none, none⟩, ⟨"beta", none, none, none, none⟩,
            ⟨"gamma", none, none, none, none⟩] : List TodoTask).getD 1 defaultTask).task) ∧
      (([⟨"alpha", none, none, none, none⟩, ⟨"beta", none, none, none, none⟩,
          ⟨"gamma", none, none, none, none⟩] : List TodoTask).eraseIdx 1).length +
        ([] : List TodoTask).length + 1 =
        ([⟨"alpha", none, none, none, none⟩, ⟨"beta", none, none, none, none⟩,
          ⟨"gamma", none, none, none, none⟩] : List TodoTask).length +
        ([] : List TodoTask).length :=
  claim3_complete_moves_task "2024-01-02T00:00:00" "beta"
    ⟨[⟨"alpha", none, none, none, none⟩, ⟨"beta", none, none, none, none⟩,
      ⟨"gamma", none, none, none, none⟩], []⟩ 1 (by decide) (by decide) (by decide)

/-- C4 counterexample: the empty string is a non-numeric reference with zero
substring matches on the empty active list, yet `remove_todo` answers it
with the cannot-remove-empty-reference status, not the not-found status. -/
theorem claim4_text_resolution_counterexample :
    pyIsDigit "" = false ∧ matchIdxs "" emptyStore.active = [] ∧
    remove_todo "" emptyStore = (.emptyRef, emptyStore) ∧
    remove_todo "" emptyStore ≠ (.notFound "", emptyStore) := by decide

/-- C4 (amended): for every non-empty non-numeric text reference, both
`remove_todo` and `complete_todo` resolve it by case-insensitive substring
match against the active texts; zero matches yields the not-found status and
two or more matches yields the ambiguous-match status, in both cases leaving
the store unchanged (the empty reference is instead answered by
`remove_todo` with its dedicated empty-reference status). -/
theorem claim4_text_resolution (now task_ref : String) (s : TodoState)
    (hne : task_ref ≠ "") (hnd : pyIsDigit task_ref = false) :
    (matchIdxs task_ref s.active = [] →
      remove_todo task_ref s = (.notFound task_ref, s) ∧
      complete_todo now task_ref s = (.notFound task_ref, s)) ∧
    (2 ≤ (matchIdxs task_ref s.active).length →
      remove_todo task_ref s = (.multipleMatches, s) ∧
      complete_todo now task_ref s = (.multipleMatches, s)) := by
  have hndP : ¬ (pyIsDigit task_ref = true) := by simp [hnd]
  constructor
  · intro hm
    constructor
    · unfold remove_todo
      rw [if_neg hne, if_neg hndP, hm]
    · unfold complete_todo
      rw [if_neg hndP, hm]
  · intro hlen
    obtain ⟨a, b, l, hm⟩ : ∃ a b l, matchIdxs task_ref s.active = a :: b :: l := by
      rcases hmm : matchIdxs task_ref s.active with _ | ⟨a, _ | ⟨b, l⟩⟩
      · rw [hmm] at hlen; simp at hlen
      · rw [hmm] at hlen; simp at hlen
      · exact ⟨a, b, l, rfl⟩
    constructor
    · unfold remove_todo
      rw [if_neg hne, if_neg hndP, hm]
    · unfold complete_todo
      rw [if_neg hndP, hm]

/-- C4 witness: "zzz" matches nothing in [alpha]; "a" matches both alpha and
gamma, so it is ambiguous; the store is unchanged in all four calls. -/
theorem claim4_text_resolution_witness :
    remove_todo "zzz" ⟨[⟨"alpha", none, none, none, none⟩], []⟩ =
      (.notFound "zzz", ⟨[⟨"alpha", none, none, none, none⟩], []⟩) ∧
    complete_todo "t9" "zzz" ⟨[⟨"alpha", none, none, none, none⟩], []⟩ =
      (.notFound "zzz", ⟨[⟨"alpha", none, none, none, none⟩], []⟩) ∧
    remove_todo "a" ⟨[⟨"alpha", none, none, none, none⟩, ⟨"gamma", none, none, none, none⟩], []⟩ =
      (.multipleMatches,
       ⟨[⟨"alpha", none, none, none, none⟩, ⟨"gamma", none, none, none, none⟩], []⟩) ∧
    complete_todo "t9" "a"
        ⟨[⟨"alpha", none, none, none, none⟩, ⟨"gamma", none, none, none, none⟩], []⟩ =
      (.multipleMatches,
       ⟨[⟨"alpha", none, none, none, none⟩, ⟨"gamma", none, none, none, none⟩], []⟩) :=
  ⟨((claim4_text_resolution "t9" "zzz" ⟨[⟨"alpha", none, none, none, none⟩], []⟩
      (by decide) (by decide)).1 (by decide)).1,
   ((claim4_text_resolution "t9" "zzz" ⟨[⟨"alpha", none, none, none, none⟩], []⟩
      (by decide) (by decide)).1 (by decide)).2,
   ((claim4_text_resolution "t9" "a"
      ⟨[⟨"alpha", none, none, none, none⟩, ⟨"gamma", none, none, none, none⟩], []⟩
      (by decide) (by decide)).2 (by decide)).1,
   ((claim4_text_resolution "t9" "a"
      ⟨[⟨"alpha", none, none, none, none⟩, ⟨"gamma", none, none, none, none⟩], []⟩
      (by decide) (by decide)).2 (by decide)).2⟩

/-- C5: `clear_todos` without `include_completed` empties the active list
and keeps the completed list exactly as it was; with `include_completed` it
empties both lists. -/
theorem claim5_clear_preserves_completed (s : TodoState) :
    clear_todos false s = (.clearedActive, ⟨[], s.completed⟩) ∧
    clear_todos true s = (.clearedAll, ⟨[], []⟩) :=
  ⟨rfl, rfl⟩

/-- C6 counterexample: with the configured maximum set to 0, appending to
the empty history yields a history of length 1 > 0, because Python
`conversation[-0:]` is the whole list; the cap is not enforced there. -/
theorem claim6_history_cap_counterexample :
    (add_to_conversation "u1" "user" "hello" "t1" [] 0 []).length = 1 ∧
    ¬ ((add_to_conversation "u1" "user" "hello" "t1" [] 0 []).length ≤ 0) := by decide

/-- C6 (amended): for every positive configured maximum (default 100), the
history length after an append never exceeds the maximum, and the retained
entries are exactly the most recent ones in insertion order: the result is
the appended list with its oldest `(len+1) - max` entries dropped (all of
them when no overflow occurs, i.e. dropping zero entries). -/
theorem claim6_history_cap (entryId role message timestamp : String)
    (metadata : List (String × String)) (maxLen : Nat) (conversation : List ConvEntry)
    (hpos : 0 < maxLen) :
    (add_to_conversation entryId role message timestamp metadata maxLen conversation).length
      ≤ maxLen ∧
    add_to_conversation entryId role message timestamp metadata maxLen conversation =
      (conversation ++ [(⟨entryId, role, message, timestamp, metadata⟩ : ConvEntry)]).drop
        ((conversation.length + 1) - maxLen) := by
  have hlen : (conversation ++ [(⟨entryId, role, message, timestamp, metadata⟩ : ConvEntry)]).length
      = conversation.length + 1 := by simp
  unfold add_to_conversation pySliceLast
  by_cases hgt : conversation.length + 1 > maxLen
  · rw [if_pos (by rw [hlen]; exact hgt), if_neg (by omega), hlen]
    refine ⟨?_, rfl⟩
    rw [List.length_drop, hlen]
    omega
  · rw [if_neg (by rw [hlen]; omega)]
    have h0 : conversation.length + 1 - maxLen = 0 := by omega
    rw [h0, List.drop_zero]
    exact ⟨by rw [hlen]; omega, rfl⟩

/-- C6 witness: appending a third entry with maximum 2 keeps exactly the
two most recent entries. -/
theorem claim6_history_cap_witness :
    (add_to_conversation "u3" "user" "hi" "t3" [] 2
        [⟨"u1", "user", "a", "t1", []⟩, ⟨"u2", "assistant", "b", "t2", []⟩]).length ≤ 2 ∧
    add_to_conversation "u3" "user" "hi" "t3" [] 2
        [⟨"u1", "user", "a", "t1", []⟩, ⟨"u2", "assistant", "b", "t2", []⟩] =
      (([⟨"u1", "user", "a", "t1", []⟩, ⟨"u2", "assistant", "b", "t2", []⟩] : List ConvEntry) ++
        [(⟨"u3", "user", "hi", "t3", []⟩ : ConvEntry)]).drop 1 :=
  claim6_history_cap "u3" "user" "hi" "t3" [] 2
    [⟨"u1", "user", "a", "t1", []⟩, ⟨"u2", "assistant", "b", "t2", []⟩] (by decide)

/-- C7: importing an exported document set in overwrite mode (`merge=False`)
reproduces the exported user state exactly, whatever the state at import
time; importing in merge mode is additive: both task lists and the
conversation are existing-then-imported concatenations, and profile lookups
answer from the imported dictionary first, falling back to the existing
one (`dict.update` semantics). -/
theorem claim7_export_import_roundtrip (s t : UserData) (d : ExportData) :
    import_data (export_data s) false t = s ∧
    (import_data d true s).active = s.active ++ d.todosActive ∧
    (import_data d true s).completed = s.completed ++ d.todosCompleted ∧
    (import_data d true s).conversation = s.conversation ++ d.conversation ∧
    ∀ k, (import_data d true s).profile.lookup k =
      match d.profile.lookup k with
      | some v => some v
      | none => s.profile.lookup k := by
  refine ⟨rfl, rfl, rfl, rfl, ?_⟩
  intro k
  exact lookup_dictUpdate s.profile d.profile k

/-- C8 counterexample: after adding "buy milk" to the empty store,
`list_todos` does not return the bare string "1. buy milk"; the rendered
listing carries a header and a priority annotation. -/
theorem claim8_scenario_counterexample :
    list_todos false (add_todo "2024-01-01T00:00:00" "buy milk" "medium" [] emptyStore).2 ≠
      "1. buy milk" := by decide

/-- C8 (amended): from the empty store, `add_todo "buy milk"` succeeds; the
default listing is then the exact string
"📝 Active Tasks:\n1. buy milk (Priority: medium)" (which contains the line
"1. buy milk" rather than being equal to it); a second add of "buy milk"
returns the already-exists status and leaves the single-task store
unchanged; `remove_todo "1"` then removes "buy milk", and the listing of the
resulting empty store is the empty-list sentinel string. -/
theorem claim8_scenario :
    add_todo "2024-01-01T00:00:00" "buy milk" "medium" [] emptyStore =
      (.added "buy milk",
       ⟨[⟨"buy milk", some "medium", some [], some "2024-01-01T00:00:00", none⟩], []⟩) ∧
    list_todos false
        ⟨[⟨"buy milk", some "medium", some [], some "2024-01-01T00:00:00", none⟩], []⟩ =
      "📝 Active Tasks:\n1. buy milk (Priority: medium)" ∧
    charsInfix "1. buy milk".data
      (list_todos false
        ⟨[⟨"buy milk", some "medium", some [], some "2024-01-01T00:00:00", none⟩], []⟩).data
      = true ∧
    add_todo "2024-01-01T00:01:00" "buy milk" "medium" []
        ⟨[⟨"buy milk", some "medium", some [], some "2024-01-01T00:00:00", none⟩], []⟩ =
      (.alreadyExists "buy milk",
       ⟨[⟨"buy milk", some "medium", some [], some "2024-01-01T00:00:00", none⟩], []⟩) ∧
    remove_todo "1"
        ⟨[⟨"buy milk", some "medium", some [], some "2024-01-01T00:00:00", none⟩], []⟩ =
      (.removed "buy milk", emptyStore) ∧
    list_todos false emptyStore = "📝 Your todo list is empty" := by decide

/-- C9 counterexample: the input "goodbye" is not one of the literal exit
keywords checked by `TodoChatbot.chat` (`exit`, `quit`, `bye`), so it falls
through to the external-model branch instead of the local goodbye reply. -/
theorem claim9_exit_keywords_counterexample :
    chatClassify "goodbye" = .agent ∧ chatClassify "goodbye" ≠ .goodbye := by decide

/-- C9 (amended): every input whose lowercased, stripped form is one of the
literal keywords `exit`, `quit`, or `bye` is recognized locally and answered
with the goodbye reply without reaching the external model; `goodbye` is not
in the keyword list and reaches the model. -/
theorem claim9_exit_keywords (user_input : String)
    (h : pyStrip (pyLower user_input) = "exit" ∨ pyStrip (pyLower user_input) = "quit"
      ∨ pyStrip (pyLower user_input) = "bye") :
    chatClassify user_input = .goodbye := by
  have hne : user_input ≠ "" := by
    intro h0
    rw [h0] at h
    rcases h with h | h | h <;> exact absurd h (by decide)
  unfold chatClassify
  rw [if_neg hne]
  rcases h with h | h | h <;> rw [h] <;> decide

/-- C9 witness: "  EXIT  " lowercases and strips to "exit" and is answered
with the goodbye reply. -/
theorem claim9_exit_keywords_witness :
    chatClassify "  EXIT  " = .goodbye :=
  claim9_exit_keywords "  EXIT  " (by decide)

/-- C10: a reference made of digit characters is always interpreted through
the 1-based index branch of `remove_todo` / `complete_todo` and never falls
through to text matching: the result is exactly the index-branch outcome
(removal/completion at position `int(ref)` when `1 ≤ int(ref) ≤ len(active)`,
the out-of-range status otherwise); in particular "0" always yields the
out-of-range status for both operations, on every store, so a task whose
text contains the digit string can never be removed or completed by it. -/
theorem claim10_digit_reference_never_text (task_ref now : String) (s : TodoState)
    (hdig : pyIsDigit task_ref = true) :
    (remove_todo task_ref s =
      if 1 ≤ strToNat task_ref ∧ strToNat task_ref ≤ s.active.length then
        (.removed (s.active.getD (strToNat task_ref - 1) defaultTask).task,
         ⟨s.active.eraseIdx (strToNat task_ref - 1), s.completed⟩)
      else (.invalidNumber s.active.length, s)) ∧
    (complete_todo now task_ref s =
      if 1 ≤ strToNat task_ref ∧ strToNat task_ref ≤ s.active.length then
        (.completedOk (s.active.getD (strToNat task_ref - 1) defaultTask).task,
         ⟨s.active.eraseIdx (strToNat task_ref - 1),
          s.completed ++ [{ s.active.getD (strToNat task_ref - 1) defaultTask with
            completed := some now }]⟩)
      else (.invalidNumber s.active.length, s)) ∧
    remove_todo "0" s = (.invalidNumber s.active.length, s) ∧
    complete_todo now "0" s = (.invalidNumber s.active.length, s) := by
  have hne : task_ref ≠ "" := by
    intro he; rw [he] at hdig; exact absurd hdig (by decide)
  have htn : ((strToNat task_ref : Int) - 1).toNat = strToNat task_ref - 1 := by omega
  have h00 : strToNat "0" = 0 := rfl
  refine ⟨?_, ?_, ?_, ?_⟩
  · unfold remove_todo
    rw [if_neg hne, if_pos hdig]
    by_cases hc : 1 ≤ strToNat task_ref ∧ strToNat task_ref ≤ s.active.length
    · rw [if_pos (by omega), if_pos hc, htn]
    · rw [if_neg (by omega), if_neg hc]
  · unfold complete_todo
    rw [if_pos hdig]
    by_cases hc : 1 ≤ strToNat task_ref ∧ strToNat task_ref ≤ s.active.length
    · rw [if_pos (by omega), if_pos hc, htn]
    · rw [if_neg (by omega), if_neg hc]
  · unfold remove_todo
    rw [if_neg (by decide), if_pos (by decide), if_neg (by rw [h00]; omega)]
  · unfold complete_todo
    rw [if_pos (by decide), if_neg (by rw [h00]; omega)]

/-- C10 witness: on a one-task store whose task text contains the digit "2",
the reference "2" is out of range (index branch) and removes nothing, and
the reference "1" removes by position. -/
theorem claim10_digit_reference_never_text_witness :
    (remove_todo "2" ⟨[⟨"task 2 things", none, none, none, none⟩], []⟩ =
      if 1 ≤ strToNat "2" ∧ strToNat "2" ≤
          ([⟨"task 2 things", none, none, none, none⟩] : List TodoTask).length then
        (.removed (([⟨"task 2 things", none, none, none, none⟩] : List TodoTask).getD
            (strToNat "2" - 1) defaultTask).task,
         ⟨([⟨"task 2 things", none, none, none, none⟩] : List TodoTask).eraseIdx
            (strToNat "2" - 1), []⟩)
      else (.invalidNumber ([⟨"task 2 things", none, none, none, none⟩] : List TodoTask).length,
        ⟨[⟨"task 2 things", none, none, none, none⟩], []⟩)) ∧
    (complete_todo "t9" "2" ⟨[⟨"task 2 things", none, none, none, none⟩], []⟩ =
      if 1 ≤ strToNat "2" ∧ strToNat "2" ≤
          ([⟨"task 2 things", none, none, none, none⟩] : List TodoTask).length then
        (.completedOk (([⟨"task 2 things", none, none, none, none⟩] : List TodoTask).getD
            (strToNat "2" - 1) defaultTask).task,
         ⟨([⟨"task 2 things", none, none, none, none⟩] : List TodoTask).eraseIdx
            (strToNat "2" - 1),
          [] ++ [{ ([⟨"task 2 things", none, none, none, none⟩] : List TodoTask).getD
            (strToNat "2" - 1) defaultTask with completed := some "t9" }]⟩)
      else (.invalidNumber ([⟨"task 2 things", none, none, none, none⟩] : List TodoTask).length,
        ⟨[⟨"task 2 things", none, none, none, none⟩], []⟩)) ∧
    remove_todo "0" ⟨[⟨"task 2 things", none, none, none, none⟩], []⟩ =
      (.invalidNumber 1, ⟨[⟨"task 2 things", none, none, none, none⟩], []⟩) ∧
    complete_todo "t9" "0" ⟨[⟨"task 2 things", none, none, none, none⟩], []⟩ =
      (.invalidNumber 1, ⟨[⟨"task 2 things", none, none, none, none⟩], []⟩) :=
  claim10_digit_reference_never_text "2" "t9"
    ⟨[⟨"task 2 things", none, none, none, none⟩], []⟩ (by decide)
